import Mathlib

/-!
Verification of the hotel-offers client and flattening transform.

Shallow embedding of the Python sources:
  - src/src/hotels/amadeus_client.py  (AmadeusClient: OAuth token manager,
    resilient GET/POST retry loops, chunked offer fetching)
  - src/src/hotels/flatten.py         (flatten_offers)

Effectful code is modelled by explicit outcome records: a transport is a
function from the attempt number (for the retry loops) or the chunk (for
the batch fetcher) to the response it returns; outcomes record the final
result, the number of transport invocations, the sleeps performed (in
seconds, in order), and the number of forced token refreshes.  The float
expression 2.0 ** k of the source is integral for every exponent the
program can produce (the attempt counter ranges over 1..3), so delays are
modelled as naturals.
-/

namespace Amadeus

/-- Constant MAX_RETRIES = 3 from amadeus_client.py. -/
def MAX_RETRIES : Nat := 3

/-- Constant RETRY_BACKOFF = 2.0 from amadeus_client.py (exponential backoff
base; the float is integral at every exponent the program uses, so it is
modelled as the natural number 2). -/
def RETRY_BACKOFF : Nat := 2

/-! ## Chunking (_chunks) and get_hotel_offers -/

/-- Fuel-driven worker for `_chunks`; the fuel is an upper bound on the
number of chunks produced, supplied as the sequence length by `_chunks`.
Mirrors the generator

  for i in range(0, len(seq), size): yield seq[i : i + size]

one step per iteration (taking a slice of `size` elements and advancing by
`size` is equivalent to taking from, then dropping, the front).  A step
count of `seq.length` always suffices because each step consumes at least
one element of a non-empty remainder. -/
def chunksGo (fuel : Nat) (seq : List String) (size : Nat) : List (List String) :=
  match fuel with
  | 0 => []
  | fuel + 1 =>
    if seq.isEmpty ∨ size = 0 then []
    else seq.take size :: chunksGo fuel (seq.drop size) size

/-- Model of the module-level helper _chunks(seq, size) of amadeus_client.py.
For size = 0 the Python range(0, len, 0) raises ValueError; the model
returns [] there, a case never reached by the program (the only call site
uses size = 20). -/
def _chunks (seq : List String) (size : Nat) : List (List String) :=
  chunksGo seq.length seq size

/-- One element of the "batches" list built by get_hotel_offers: the dict
with keys "request_hotel_ids" and "response". -/
structure OffersBatch (α : Type) where
  request_hotel_ids : List String
  response : α

/-- Result of get_hotel_offers: the returned value together with the number
of GET requests issued while producing it. -/
structure OffersResult (α : Type) where
  batches : List (OffersBatch α)
  networkCalls : Nat

/-- Model of AmadeusClient.get_hotel_offers.  The query parameters built
from check_in, nights, adults, rooms and currency are the same for every
chunk, so the network interaction is abstracted as a transport mapping a
chunk to the parsed JSON body returned by self._get for that chunk.  One
GET is issued per chunk; an empty id list returns at once with no GET. -/
def get_hotel_offers {α : Type} (hotel_ids : List String) (transport : List String → α) :
    OffersResult α :=
  if hotel_ids.isEmpty then ⟨[], 0⟩
  else ⟨(_chunks hotel_ids 20).map (fun c => ⟨c, transport c⟩), (_chunks hotel_ids 20).length⟩

/-! ## HTTP responses and the retry helpers -/

/-- The parts of a requests.Response the client reads: the status code,
the Retry-After header (resp.headers.get("Retry-After")), the body text
(resp.text) and the parsed JSON body (resp.json()). -/
structure Response (α : Type) where
  status : Nat
  retryAfter : Option String
  text : String
  json : α

/-- Python truthiness-plus-isdigit test `retry_after and retry_after.isdigit()`
on an already-present header value: non-empty and all decimal digits.
(Python's str.isdigit also accepts non-ASCII digit characters, which cannot
occur in an HTTP header value.) -/
def isNumericStr (s : String) : Bool :=
  !s.data.isEmpty && s.data.all Char.isDigit

/-- One step of decimal accumulation: shift the accumulator and add the
value of the next digit character. -/
def parseStep (acc : Nat) (c : Char) : Nat :=
  acc * 10 + (c.toNat - 48)

/-- Model of Python int(s) on a string of decimal digits. -/
def parseNat (s : String) : Nat :=
  s.data.foldl parseStep 0

/-- The ASCII digit character of a value below ten. -/
def decDigit : Nat → Char
  | 0 => '0'
  | 1 => '1'
  | 2 => '2'
  | 3 => '3'
  | 4 => '4'
  | 5 => '5'
  | 6 => '6'
  | 7 => '7'
  | 8 => '8'
  | 9 => '9'
  | _ => '0'

/-- Fuel-driven worker producing the decimal digits of n in front of acc;
fuel n + 1 always suffices since the value is divided by ten each step. -/
def toDecAux : Nat → Nat → List Char → List Char
  | 0, _, acc => acc
  | fuel + 1, n, acc =>
    if n < 10 then decDigit n :: acc
    else toDecAux fuel (n / 10) (decDigit (n % 10) :: acc)

/-- The decimal spelling of a natural number, used to quantify over all
numeric Retry-After header values. -/
def toDec (n : Nat) : String :=
  String.mk (toDecAux (n + 1) n [])

/-- The delay computed by _handle_rate_limit: the numeric value of the
Retry-After header when it is present and numeric, otherwise
max(1, int(RETRY_BACKOFF ** attempt)). -/
def rateLimitDelay (retryAfter : Option String) (attempt : Nat) : Nat :=
  match retryAfter with
  | some ra => if isNumericStr ra then parseNat ra else max 1 (RETRY_BACKOFF ^ attempt)
  | none => max 1 (RETRY_BACKOFF ^ attempt)

/-- The delay slept by _sleep_backoff: RETRY_BACKOFF ** (attempt - 1). -/
def _sleep_backoff (attempt : Nat) : Nat :=
  RETRY_BACKOFF ^ (attempt - 1)

/-- Model of the Python slice resp.text[:500]: the first 500 characters of
the body text. -/
def textExcerpt (s : String) : String :=
  String.mk (s.data.take 500)

/-- Terminal result of the _get retry loop. -/
inductive GetResult (α : Type) where
  | ok (body : α)
  | rateLimitError
  | httpError (status : Nat) (bodyExcerpt : String)
  | exhausted
deriving DecidableEq

/-- Observable outcome of a run of the _get retry loop: terminal result,
number of transport invocations, sleeps in order, and number of forced
token refreshes (get_access_token(force=True) calls). -/
structure GetOutcome (α : Type) where
  result : GetResult α
  calls : Nat
  sleeps : List Nat
  refreshes : Nat
deriving DecidableEq

/-- One pass of the loop `for attempt in range(1, MAX_RETRIES + 1)` of
AmadeusClient._get, starting at the given attempt with the given number of
remaining iterations (the fuel).  Branches in source order: 429 first
(_handle_rate_limit sleeps, then raises AmadeusRateLimitError when
attempt >= MAX_RETRIES, else the loop continues), then 401 with
attempt < MAX_RETRIES (forced token refresh, modelled as a counted action
that succeeds; its own failure modes are verified separately on
_post_form), then 2xx success, then 5xx with attempt < MAX_RETRIES
(_sleep_backoff then continue), else the terminal RuntimeError carrying
the status and resp.text[:500].  Exhausted fuel is the final
`raise RuntimeError(... failed after retries.)` after the loop. -/
def runGet {α : Type} (t : Nat → Response α) : Nat → Nat → GetOutcome α
  | _, 0 => ⟨.exhausted, 0, [], 0⟩
  | attempt, fuel + 1 =>
    if (t attempt).status = 429 then
      if MAX_RETRIES ≤ attempt then
        ⟨.rateLimitError, 1, [rateLimitDelay (t attempt).retryAfter attempt], 0⟩
      else
        ⟨(runGet t (attempt + 1) fuel).result,
         (runGet t (attempt + 1) fuel).calls + 1,
         rateLimitDelay (t attempt).retryAfter attempt :: (runGet t (attempt + 1) fuel).sleeps,
         (runGet t (attempt + 1) fuel).refreshes⟩
    else if (t attempt).status = 401 ∧ attempt < MAX_RETRIES then
      ⟨(runGet t (attempt + 1) fuel).result,
       (runGet t (attempt + 1) fuel).calls + 1,
       (runGet t (attempt + 1) fuel).sleeps,
       (runGet t (attempt + 1) fuel).refreshes + 1⟩
    else if 200 ≤ (t attempt).status ∧ (t attempt).status < 300 then
      ⟨.ok (t attempt).json, 1, [], 0⟩
    else if 500 ≤ (t attempt).status ∧ (t attempt).status < 600 ∧ attempt < MAX_RETRIES then
      ⟨(runGet t (attempt + 1) fuel).result,
       (runGet t (attempt + 1) fuel).calls + 1,
       _sleep_backoff attempt :: (runGet t (attempt + 1) fuel).sleeps,
       (runGet t (attempt + 1) fuel).refreshes⟩
    else
      ⟨.httpError (t attempt).status (textExcerpt (t attempt).text), 1, [], 0⟩

/-- Model of AmadeusClient._get: the retry loop entered at attempt 1 with
MAX_RETRIES iterations available. -/
def _get {α : Type} (t : Nat → Response α) : GetOutcome α :=
  runGet t 1 MAX_RETRIES

/-- Terminal result of the _post_form retry loop.  authFailed is the
AmadeusAuthError raised with the status and resp.text[:500]; authExhausted
is the AmadeusAuthError("Auth failed after retries.") after the loop;
rateLimitError is the AmadeusRateLimitError raised inside
_handle_rate_limit. -/
inductive PostResult (α : Type) where
  | ok (body : α)
  | rateLimitError
  | authFailed (status : Nat) (bodyExcerpt : String)
  | authExhausted
deriving DecidableEq

/-- Whether a terminal _post_form result is an AmadeusAuthError (as opposed
to an AmadeusRateLimitError or a success). -/
def PostResult.isAuthError {α : Type} : PostResult α → Bool
  | .authFailed _ _ => true
  | .authExhausted => true
  | _ => false

/-- Observable outcome of a run of the _post_form retry loop. -/
structure PostOutcome (α : Type) where
  result : PostResult α
  calls : Nat
  sleeps : List Nat
deriving DecidableEq

/-- One pass of the loop `for attempt in range(1, MAX_RETRIES + 1)` of
AmadeusClient._post_form.  Branches in source order: 429
(_handle_rate_limit), 2xx success, 5xx with attempt < MAX_RETRIES
(_sleep_backoff then continue), else AmadeusAuthError with status and
body excerpt. -/
def runPost {α : Type} (t : Nat → Response α) : Nat → Nat → PostOutcome α
  | _, 0 => ⟨.authExhausted, 0, []⟩
  | attempt, fuel + 1 =>
    if (t attempt).status = 429 then
      if MAX_RETRIES ≤ attempt then
        ⟨.rateLimitError, 1, [rateLimitDelay (t attempt).retryAfter attempt]⟩
      else
        ⟨(runPost t (attempt + 1) fuel).result,
         (runPost t (attempt + 1) fuel).calls + 1,
         rateLimitDelay (t attempt).retryAfter attempt :: (runPost t (attempt + 1) fuel).sleeps⟩
    else if 200 ≤ (t attempt).status ∧ (t attempt).status < 300 then
      ⟨.ok (t attempt).json, 1, []⟩
    else if 500 ≤ (t attempt).status ∧ (t attempt).status < 600 ∧ attempt < MAX_RETRIES then
      ⟨(runPost t (attempt + 1) fuel).result,
       (runPost t (attempt + 1) fuel).calls + 1,
       _sleep_backoff attempt :: (runPost t (attempt + 1) fuel).sleeps⟩
    else
      ⟨.authFailed (t attempt).status (textExcerpt (t attempt).text), 1, []⟩

/-- Model of AmadeusClient._post_form: the retry loop entered at attempt 1
with MAX_RETRIES iterations available. -/
def _post_form {α : Type} (t : Nat → Response α) : PostOutcome α :=
  runPost t 1 MAX_RETRIES

/-! ## Token manager (get_access_token) -/

/-- The only field of the token-exchange JSON body the client reads:
data.get("access_token"). -/
structure AuthJson where
  access_token : Option String
deriving DecidableEq

/-- Terminal result of get_access_token.  missingToken is the
AmadeusAuthError("Missing access_token in response: ...") raised when the
success body lacks a truthy access_token; the other error constructors
propagate the corresponding _post_form failures. -/
inductive TokenResult where
  | ok (token : String)
  | missingToken
  | rateLimitError
  | authFailed (status : Nat) (bodyExcerpt : String)
  | authExhausted
deriving DecidableEq

/-- Observable outcome of get_access_token: the result, the cached token
(self._access_token) after the call, and the number of token-exchange
POSTs performed (0 when served from cache, else 1: the _post_form retry
loop runs once and the missing-token check happens after it returns). -/
structure TokenOutcome where
  result : TokenResult
  token : Option String
  exchanges : Nat
deriving DecidableEq

/-- Python truthiness of the cached token `if self._access_token and ...`:
present and non-empty. -/
def tokenTruthy : Option String → Bool
  | none => false
  | some t => !(t == "")

/-- Model of AmadeusClient.get_access_token(force).  The cached token is
returned as-is when it is truthy and force is not set; otherwise one
client-credentials exchange runs through _post_form and, on a 2xx body, a
falsy access_token raises AmadeusAuthError before the cache is written,
leaving the cached token unchanged. -/
def get_access_token (cached : Option String) (force : Bool)
    (t : Nat → Response AuthJson) : TokenOutcome :=
  if tokenTruthy cached && !force then
    ⟨.ok (cached.getD ""), cached, 0⟩
  else
    match (_post_form t).result with
    | .ok body =>
      match body.access_token with
      | some tok => if tok = "" then ⟨.missingToken, cached, 1⟩ else ⟨.ok tok, some tok, 1⟩
      | none => ⟨.missingToken, cached, 1⟩
    | .rateLimitError => ⟨.rateLimitError, cached, 1⟩
    | .authFailed st ex => ⟨.authFailed st ex, cached, 1⟩
    | .authExhausted => ⟨.authExhausted, cached, 1⟩

/-! ## Flattening transform (flatten.py) -/

/-- A calendar date as produced by datetime.date.fromisoformat. -/
structure Date where
  year : Nat
  month : Nat
  day : Nat
deriving DecidableEq

/-- Gregorian leap-year test, as in the datetime module. -/
def isLeapYear (y : Nat) : Bool :=
  (y % 4 == 0 && y % 100 != 0) || y % 400 == 0

/-- Number of days in a month of a given year. -/
def daysInMonth (y m : Nat) : Nat :=
  if m = 2 then (if isLeapYear y then 29 else 28)
  else if m = 4 ∨ m = 6 ∨ m = 9 ∨ m = 11 then 30
  else 31

/-- Numeric value of an ASCII digit character. -/
def charDigit (c : Char) : Nat := c.toNat - 48

/-- Model of datetime.date.fromisoformat on the canonical YYYY-MM-DD form:
ten characters, dashes at positions 4 and 7, decimal digits elsewhere, and
a valid calendar date with year at least MINYEAR = 1 (a four-digit year is
at most 9999 = MAXYEAR automatically).  Anything else fails to parse.
(Python 3.11 extended fromisoformat to further ISO 8601 spellings; the
dates this API exchanges are in the canonical form modelled here.) -/
def fromisoformat (s : String) : Option Date :=
  match s.data with
  | [y1, y2, y3, y4, h1, m1, m2, h2, d1, d2] =>
    if (y1.isDigit && y2.isDigit && y3.isDigit && y4.isDigit &&
        (h1 == '-') && m1.isDigit && m2.isDigit && (h2 == '-') &&
        d1.isDigit && d2.isDigit) then
      let y := ((charDigit y1 * 10 + charDigit y2) * 10 + charDigit y3) * 10 + charDigit y4
      let m := charDigit m1 * 10 + charDigit m2
      let d := charDigit d1 * 10 + charDigit d2
      if 1 ≤ y ∧ 1 ≤ m ∧ m ≤ 12 ∧ 1 ≤ d ∧ d ≤ daysInMonth y m then
        some ⟨y, m, d⟩
      else none
    else none
  | _ => none

/-- Days in the years before year y (datetime's _days_before_year). -/
def daysBeforeYear (y : Nat) : Nat :=
  365 * (y - 1) + (y - 1) / 4 - (y - 1) / 100 + (y - 1) / 400

/-- Days in year y before the first of month m (datetime's
_days_before_month). -/
def daysBeforeMonth (y m : Nat) : Nat :=
  (List.range (m - 1)).foldl (fun acc i => acc + daysInMonth y (i + 1)) 0

/-- Model of datetime.date.toordinal: day number in the proleptic Gregorian
calendar, with 0001-01-01 as day one.  The subtraction of two dates in
Python yields a timedelta whose .days field is the difference of the two
ordinals. -/
def dateOrdinal (dt : Date) : Nat :=
  daysBeforeYear dt.year + daysBeforeMonth dt.year dt.month + dt.day

/-- The nights computation of flatten_offers: None unless both date strings
are present and truthy (Python: `if check_in and check_out`) and both parse
with date.fromisoformat, in which case it is (co - ci).days, the signed
ordinal difference; a parse failure is swallowed by the bare except and
leaves None. -/
def nightsOf (check_in check_out : Option String) : Option Int :=
  match check_in, check_out with
  | some ci, some co =>
    if ci = "" ∨ co = "" then none
    else
      match fromisoformat ci, fromisoformat co with
      | some a, some b => some ((dateOrdinal b : Int) - (dateOrdinal a : Int))
      | _, _ => none
  | _, _ => none

/-- The value under offers[i].policies.refundable, when the "refundable"
key is present: the dict read with .get("cancellationRefund"). -/
structure Refundable where
  cancellationRefund : Option String
deriving DecidableEq

/-- The offer.get("policies", ...) dict as read by flatten_offers: only the
presence and content of its "refundable" key is observed, so a missing
"policies" key and an empty dict coincide as refundable = none. -/
structure Policies where
  refundable : Option Refundable
deriving DecidableEq

/-- The refundable_flag computation of flatten_offers: None when the
"refundable" key is absent, else the Python comparison
policies["refundable"].get("cancellationRefund") != "NON_REFUNDABLE"
(in particular a missing cancellationRefund gives None != "NON_REFUNDABLE",
hence true). -/
def refundableOf (policies : Policies) : Option Bool :=
  match policies.refundable with
  | some r => some (decide (r.cancellationRefund ≠ some "NON_REFUNDABLE"))
  | none => none

/-- The offer.get("price", ...) dict: only its "total" and "currency" keys
are read. -/
structure Price where
  total : Option String
  currency : Option String
deriving DecidableEq

/-- One element of an entry's "offers" list, with the fields flatten_offers
reads. -/
structure Offer where
  checkInDate : Option String
  checkOutDate : Option String
  price : Price
  policies : Policies
deriving DecidableEq

/-- The entry.get("hotel", ...) dict: only its "hotelId" key is read. -/
structure Hotel where
  hotelId : Option String
deriving DecidableEq

/-- One element of response["data"]. -/
structure OfferEntry where
  hotel : Hotel
  offers : List Offer
deriving DecidableEq

/-- The response value of a batch: only its "data" list is read. -/
structure OffersResponse where
  data : List OfferEntry
deriving DecidableEq

/-- One element of raw["batches"] as read by flatten_offers (the
request_hotel_ids key also present in each batch is not read). -/
structure RawBatch where
  response : OffersResponse
deriving DecidableEq

/-- The argument of flatten_offers: the dict returned by get_hotel_offers. -/
structure RawOffers where
  batches : List RawBatch
deriving DecidableEq

/-- One output row of flatten_offers. -/
structure FlatRow where
  hotelId : Option String
  checkInDate : Option String
  nights : Option Int
  totalPrice : Option String
  currency : Option String
  refundable : Option Bool
deriving DecidableEq

/-- Model of flatten_offers from flatten.py: one row per offer, appended in
iteration order over batches, entries and offers. -/
def flatten_offers (raw : RawOffers) : List FlatRow :=
  raw.batches.flatMap (fun batch =>
    batch.response.data.flatMap (fun entry =>
      entry.offers.map (fun offer =>
        { hotelId := entry.hotel.hotelId
          checkInDate := offer.checkInDate
          nights := nightsOf offer.checkInDate offer.checkOutDate
          totalPrice := offer.price.total
          currency := offer.price.currency
          refundable := refundableOf offer.policies })))

/-- All offers of a raw result in iteration order, for stating row-by-row
facts about flatten_offers. -/
def allOffers (raw : RawOffers) : List Offer :=
  raw.batches.flatMap (fun batch =>
    batch.response.data.flatMap (fun entry => entry.offers))

/-! ## Concrete instances used by the witnesses -/

/-- Twenty-one hotel ids, enough to exercise two chunks. -/
def idsW : List String :=
  ["h01", "h02", "h03", "h04", "h05", "h06", "h07", "h08", "h09", "h10",
   "h11", "h12", "h13", "h14", "h15", "h16", "h17", "h18", "h19", "h20",
   "h21"]

/-- A transport answering 429 with header Retry-After: 5 on every attempt. -/
def t429five : Nat → Response Nat :=
  fun _ => ⟨429, some "5", "", 0⟩

/-- A transport answering 401 on the first attempt and 200 with body 7 on
every later attempt. -/
def t401then200 : Nat → Response Nat :=
  fun n => if n = 1 then ⟨401, none, "unauthorized", 0⟩ else ⟨200, none, "", 7⟩

/-- A transport answering 401 with body text unauthorized on every
attempt. -/
def tAll401 : Nat → Response Nat :=
  fun _ => ⟨401, none, "unauthorized", 0⟩

/-- A transport answering 500 with body text boom on every attempt. -/
def tAll500 : Nat → Response Nat :=
  fun _ => ⟨500, none, "boom", 0⟩

/-- A transport answering 429 with no Retry-After header on every attempt. -/
def post429 : Nat → Response Unit :=
  fun _ => ⟨429, none, "", ()⟩

/-- A transport answering 503 with body text down on every attempt. -/
def post503 : Nat → Response Unit :=
  fun _ => ⟨503, none, "down", ()⟩

/-- A token-exchange transport answering 200 with a body that lacks the
access_token field. -/
def postNoToken : Nat → Response AuthJson :=
  fun _ => ⟨200, none, "", ⟨none⟩⟩

/-- A token-exchange transport answering 200 with access_token tok-fresh. -/
def postFresh : Nat → Response AuthJson :=
  fun _ => ⟨200, none, "", ⟨some "tok-fresh"⟩⟩

/-- A one-offer raw result with the given check-in and check-out dates and
no price, policy or hotel data. -/
def sampleRaw (ci co : Option String) : RawOffers :=
  ⟨[⟨⟨[⟨⟨none⟩, [⟨ci, co, ⟨none, none⟩, ⟨none⟩⟩]⟩]⟩⟩]⟩

/-- A one-offer raw result with the given policies and no date, price or
hotel data. -/
def samplePolicyRaw (p : Policies) : RawOffers :=
  ⟨[⟨⟨[⟨⟨none⟩, [⟨none, none, ⟨none, none⟩, p⟩]⟩]⟩⟩]⟩

/-! ## Helper lemmas about chunking -/

theorem chunksGo_flatten (size : Nat) (hs : size ≠ 0) :
    ∀ (fuel : Nat) (seq : List String), seq.length ≤ fuel →
      (chunksGo fuel seq size).flatten = seq := by
  intro fuel
  induction fuel with
  | zero =>
    intro seq h
    have : seq = [] := List.eq_nil_of_length_eq_zero (Nat.le_zero.mp h)
    subst this
    simp [chunksGo]
  | succ n ih =>
    intro seq h
    by_cases he : seq = []
    · subst he; simp [chunksGo]
    · rw [chunksGo, if_neg (by simp [he, hs]), List.flatten_cons,
        ih (seq.drop size) ?_, List.take_append_drop]
      have hpos : 0 < seq.length := List.length_pos.mpr he
      rw [List.length_drop]
      omega

theorem chunksGo_length20 :
    ∀ (fuel : Nat) (seq : List String), seq.length ≤ fuel →
      (chunksGo fuel seq 20).length = (seq.length + 19) / 20 := by
  intro fuel
  induction fuel with
  | zero =>
    intro seq h
    have : seq = [] := List.eq_nil_of_length_eq_zero (Nat.le_zero.mp h)
    subst this
    simp [chunksGo]
  | succ n ih =>
    intro seq h
    by_cases he : seq = []
    · subst he; simp [chunksGo]
    · rw [chunksGo, if_neg (by simp [he])]
      have hpos : 0 < seq.length := List.length_pos.mpr he
      have hd : (seq.drop 20).length = seq.length - 20 := List.length_drop 20 seq
      rw [List.length_cons, ih (seq.drop 20) (by omega), hd]
      omega

theorem chunksGo_mem (size : Nat) (hs : size ≠ 0) :
    ∀ (fuel : Nat) (seq : List String), seq.length ≤ fuel →
      ∀ c ∈ chunksGo fuel seq size, c.length ≤ size ∧ c ≠ [] := by
  intro fuel
  induction fuel with
  | zero =>
    intro seq h
    have : seq = [] := List.eq_nil_of_length_eq_zero (Nat.le_zero.mp h)
    subst this
    simp [chunksGo]
  | succ n ih =>
    intro seq h
    by_cases he : seq = []
    · subst he; simp [chunksGo]
    · rw [chunksGo, if_neg (by simp [he, hs])]
      intro c hc
      rcases List.mem_cons.mp hc with rfl | hmem
      · constructor
        · rw [List.length_take]; omega
        · simp [List.take_eq_nil_iff, he, hs]
      · have hpos : 0 < seq.length := List.length_pos.mpr he
        exact ih (seq.drop size) (by rw [List.length_drop]; omega) c hmem

theorem chunks_flatten (seq : List String) (size : Nat) (hs : size ≠ 0) :
    (_chunks seq size).flatten = seq :=
  chunksGo_flatten size hs seq.length seq le_rfl

theorem chunks_length20 (seq : List String) :
    (_chunks seq 20).length = (seq.length + 19) / 20 :=
  chunksGo_length20 seq.length seq le_rfl

theorem chunks_mem (seq : List String) (size : Nat) (hs : size ≠ 0) :
    ∀ c ∈ _chunks seq size, c.length ≤ size ∧ c ≠ [] :=
  chunksGo_mem size hs seq.length seq le_rfl

/-! ## Helper lemmas about decimal strings -/

theorem decDigit_spec : ∀ k < 10, (decDigit k).toNat - 48 = k ∧ (decDigit k).isDigit = true := by
  decide

theorem foldl_parseStep (cs : List Char) :
    ∀ acc : Nat, cs.foldl parseStep acc = acc * 10 ^ cs.length + cs.foldl parseStep 0 := by
  induction cs with
  | nil => intro acc; simp
  | cons c cs ih =>
    intro acc
    rw [List.foldl_cons, List.foldl_cons, ih (parseStep acc c), ih (parseStep 0 c)]
    simp only [parseStep, List.length_cons]
    ring

theorem foldl_toDecAux (fuel : Nat) :
    ∀ (n : Nat) (cs : List Char), n < fuel →
      (toDecAux fuel n cs).foldl parseStep 0 = n * 10 ^ cs.length + cs.foldl parseStep 0 := by
  induction fuel with
  | zero => intro n cs h; omega
  | succ fuel ih =>
    intro n cs h
    by_cases hn : n < 10
    · rw [toDecAux, if_pos hn, List.foldl_cons, foldl_parseStep]
      simp only [parseStep, (decDigit_spec n hn).1]
      ring_nf
    · rw [toDecAux, if_neg hn, ih (n / 10) (decDigit (n % 10) :: cs) (by omega),
        List.foldl_cons]
      have hm : (n % 10 : Nat) < 10 := by omega
      simp only [parseStep, (decDigit_spec (n % 10) hm).1, List.length_cons]
      rw [pow_succ, foldl_parseStep cs (0 * 10 + n % 10)]
      have hqr : 10 * (n / 10) + n % 10 = n := by omega
      have hmul : (10 * (n / 10) + n % 10) * 10 ^ cs.length = n * 10 ^ cs.length := by
        rw [hqr]
      have hexp : n / 10 * (10 ^ cs.length * 10) + (0 * 10 + n % 10) * 10 ^ cs.length
          = (10 * (n / 10) + n % 10) * 10 ^ cs.length := by ring
      linarith [hmul, hexp]

theorem parseNat_toDec (n : Nat) : parseNat (toDec n) = n := by
  have h := foldl_toDecAux (n + 1) n [] (by omega)
  simpa [parseNat, toDec] using h

theorem toDecAux_length (fuel : Nat) :
    ∀ (n : Nat) (cs : List Char), cs.length + 1 ≤ (toDecAux (fuel + 1) n cs).length := by
  induction fuel with
  | zero =>
    intro n cs
    by_cases hn : n < 10
    · rw [toDecAux, if_pos hn]; simp
    · rw [toDecAux, if_neg hn, toDecAux]; simp
  | succ fuel ih =>
    intro n cs
    by_cases hn : n < 10
    · rw [toDecAux, if_pos hn]; simp
    · rw [toDecAux, if_neg hn]
      have := ih (n / 10) (decDigit (n % 10) :: cs)
      simp only [List.length_cons] at this
      omega

theorem toDecAux_digits (fuel : Nat) :
    ∀ (n : Nat) (cs : List Char), cs.all Char.isDigit = true →
      (toDecAux fuel n cs).all Char.isDigit = true := by
  induction fuel with
  | zero => intro n cs h; exact h
  | succ fuel ih =>
    intro n cs h
    by_cases hn : n < 10
    · rw [toDecAux, if_pos hn, List.all_cons, (decDigit_spec n hn).2, h]; rfl
    · rw [toDecAux, if_neg hn]
      refine ih (n / 10) _ ?_
      have hm : (n % 10 : Nat) < 10 := by omega
      rw [List.all_cons, (decDigit_spec (n % 10) hm).2, h]
      rfl

theorem isNumericStr_toDec (n : Nat) : isNumericStr (toDec n) = true := by
  have hlen := toDecAux_length n n []
  have hdig := toDecAux_digits (n + 1) n [] rfl
  simp only [isNumericStr, toDec, Bool.and_eq_true, Bool.not_eq_true]
  constructor
  · simp only [List.length_nil] at hlen
    cases hh : toDecAux (n + 1) n [] with
    | nil => rw [hh] at hlen; simp at hlen
    | cons c cs => rfl
  · exact hdig

/-! ## Step lemmas for the retry loops -/

theorem runGet_429_stop {α : Type} (t : Nat → Response α) (a fuel : Nat)
    (h : (t a).status = 429) (ha : MAX_RETRIES ≤ a) :
    runGet t a (fuel + 1) = ⟨.rateLimitError, 1, [rateLimitDelay (t a).retryAfter a], 0⟩ := by
  rw [runGet, if_pos h, if_pos ha]

theorem runGet_429_retry {α : Type} (t : Nat → Response α) (a fuel : Nat)
    (h : (t a).status = 429) (ha : a < MAX_RETRIES) :
    runGet t a (fuel + 1) =
      ⟨(runGet t (a + 1) fuel).result, (runGet t (a + 1) fuel).calls + 1,
       rateLimitDelay (t a).retryAfter a :: (runGet t (a + 1) fuel).sleeps,
       (runGet t (a + 1) fuel).refreshes⟩ := by
  rw [runGet, if_pos h, if_neg (by omega)]

theorem runGet_401_refresh {α : Type} (t : Nat → Response α) (a fuel : Nat)
    (h : (t a).status = 401) (ha : a < MAX_RETRIES) :
    runGet t a (fuel + 1) =
      ⟨(runGet t (a + 1) fuel).result, (runGet t (a + 1) fuel).calls + 1,
       (runGet t (a + 1) fuel).sleeps, (runGet t (a + 1) fuel).refreshes + 1⟩ := by
  rw [runGet, if_neg (by omega), if_pos ⟨h, ha⟩]

theorem runGet_2xx {α : Type} (t : Nat → Response α) (a fuel : Nat)
    (h1 : 200 ≤ (t a).status) (h2 : (t a).status < 300) :
    runGet t a (fuel + 1) = ⟨.ok (t a).json, 1, [], 0⟩ := by
  rw [runGet, if_neg (by omega), if_neg (by omega), if_pos ⟨h1, h2⟩]

theorem runGet_5xx_retry {α : Type} (t : Nat → Response α) (a fuel : Nat)
    (h1 : 500 ≤ (t a).status) (h2 : (t a).status < 600) (ha : a < MAX_RETRIES) :
    runGet t a (fuel + 1) =
      ⟨(runGet t (a + 1) fuel).result, (runGet t (a + 1) fuel).calls + 1,
       _sleep_backoff a :: (runGet t (a + 1) fuel).sleeps,
       (runGet t (a + 1) fuel).refreshes⟩ := by
  rw [runGet, if_neg (by omega), if_neg (by omega), if_neg (by omega), if_pos ⟨h1, h2, ha⟩]

theorem runGet_terminal {α : Type} (t : Nat → Response α) (a fuel : Nat)
    (hn429 : (t a).status ≠ 429)
    (hn401 : ¬((t a).status = 401 ∧ a < MAX_RETRIES))
    (hn2xx : ¬(200 ≤ (t a).status ∧ (t a).status < 300))
    (hn5xx : ¬(500 ≤ (t a).status ∧ (t a).status < 600 ∧ a < MAX_RETRIES)) :
    runGet t a (fuel + 1) =
      ⟨.httpError (t a).status (textExcerpt (t a).text), 1, [], 0⟩ := by
  rw [runGet, if_neg hn429, if_neg hn401, if_neg hn2xx, if_neg hn5xx]

theorem runPost_429_stop {α : Type} (t : Nat → Response α) (a fuel : Nat)
    (h : (t a).status = 429) (ha : MAX_RETRIES ≤ a) :
    runPost t a (fuel + 1) = ⟨.rateLimitError, 1, [rateLimitDelay (t a).retryAfter a]⟩ := by
  rw [runPost, if_pos h, if_pos ha]

theorem runPost_429_retry {α : Type} (t : Nat → Response α) (a fuel : Nat)
    (h : (t a).status = 429) (ha : a < MAX_RETRIES) :
    runPost t a (fuel + 1) =
      ⟨(runPost t (a + 1) fuel).result, (runPost t (a + 1) fuel).calls + 1,
       rateLimitDelay (t a).retryAfter a :: (runPost t (a + 1) fuel).sleeps⟩ := by
  rw [runPost, if_pos h, if_neg (by omega)]

theorem runPost_2xx {α : Type} (t : Nat → Response α) (a fuel : Nat)
    (h1 : 200 ≤ (t a).status) (h2 : (t a).status < 300) :
    runPost t a (fuel + 1) = ⟨.ok (t a).json, 1, []⟩ := by
  rw [runPost, if_neg (by omega), if_pos ⟨h1, h2⟩]

theorem runPost_5xx_retry {α : Type} (t : Nat → Response α) (a fuel : Nat)
    (h1 : 500 ≤ (t a).status) (h2 : (t a).status < 600) (ha : a < MAX_RETRIES) :
    runPost t a (fuel + 1) =
      ⟨(runPost t (a + 1) fuel).result, (runPost t (a + 1) fuel).calls + 1,
       _sleep_backoff a :: (runPost t (a + 1) fuel).sleeps⟩ := by
  rw [runPost, if_neg (by omega), if_neg (by omega), if_pos ⟨h1, h2, ha⟩]

theorem runPost_terminal {α : Type} (t : Nat → Response α) (a fuel : Nat)
    (hn429 : (t a).status ≠ 429)
    (hn2xx : ¬(200 ≤ (t a).status ∧ (t a).status < 300))
    (hn5xx : ¬(500 ≤ (t a).status ∧ (t a).status < 600 ∧ a < MAX_RETRIES)) :
    runPost t a (fuel + 1) =
      ⟨.authFailed (t a).status (textExcerpt (t a).text), 1, []⟩ := by
  rw [runPost, if_neg hn429, if_neg hn2xx, if_neg hn5xx]

/-! ## Helper lemmas about the flattening transform -/

theorem flatten_map_nights (raw : RawOffers) :
    (flatten_offers raw).map FlatRow.nights
      = (allOffers raw).map (fun o => nightsOf o.checkInDate o.checkOutDate) := by
  simp only [flatten_offers, allOffers, List.map_flatMap, List.map_map]
  rfl

theorem flatten_map_refundable (raw : RawOffers) :
    (flatten_offers raw).map FlatRow.refundable
      = (allOffers raw).map (fun o => refundableOf o.policies) := by
  simp only [flatten_offers, allOffers, List.map_flatMap, List.map_map]
  rfl

theorem fromisoformat_empty : fromisoformat "" = none := by decide

theorem nightsOf_left_none (ci : String) (x : Option String)
    (h : fromisoformat ci = none) : nightsOf (some ci) x = none := by
  cases x with
  | none => rfl
  | some co =>
    by_cases hor : ci = "" ∨ co = ""
    · simp only [nightsOf, if_pos hor]
    · simp only [nightsOf, if_neg hor, h]

theorem nightsOf_right_none (co : String) (x : Option String)
    (h : fromisoformat co = none) : nightsOf x (some co) = none := by
  cases x with
  | none => rfl
  | some ci =>
    by_cases hor : ci = "" ∨ co = ""
    · simp only [nightsOf, if_pos hor]
    · simp only [nightsOf, if_neg hor, h]
      cases hci : fromisoformat ci <;> rfl

theorem nightsOf_parses (ci co : String) (a b : Date)
    (ha : fromisoformat ci = some a) (hb : fromisoformat co = some b) :
    nightsOf (some ci) (some co) = some ((dateOrdinal b : Int) - (dateOrdinal a : Int)) := by
  have hci : ci ≠ "" := by
    rintro rfl
    rw [fromisoformat_empty] at ha
    exact Option.noConfusion ha
  have hco : co ≠ "" := by
    rintro rfl
    rw [fromisoformat_empty] at hb
    exact Option.noConfusion hb
  have hnot : ¬(ci = "" ∨ co = "") := by
    rintro (hh | hh)
    · exact hci hh
    · exact hco hh
  simp only [nightsOf, ha, hb, if_neg hnot]

/-! ## Claims -/

/-- C1.  For every id sequence passed to get_hotel_offers: if the sequence
is empty, the result is an empty batch sequence and no network request is
issued; if it is non-empty with length L, the ids are partitioned into
ceil(L/20) chunks each of size at most 20, no chunk empty, whose
concatenation in order equals the original sequence, and the returned
batches pair each chunk's ids with its response in chunk order. -/
theorem claim_C1 {α : Type} (ids : List String) (transport : List String → α) :
    (ids = [] → get_hotel_offers ids transport = ⟨[], 0⟩) ∧
    (ids ≠ [] →
      (get_hotel_offers ids transport).batches.map OffersBatch.request_hotel_ids
          = _chunks ids 20 ∧
      (_chunks ids 20).length = (ids.length + 19) / 20 ∧
      (_chunks ids 20).flatten = ids ∧
      (∀ c ∈ _chunks ids 20, c.length ≤ 20 ∧ c ≠ []) ∧
      (∀ b ∈ (get_hotel_offers ids transport).batches,
        b.response = transport b.request_hotel_ids) ∧
      (get_hotel_offers ids transport).networkCalls = (_chunks ids 20).length) := by
  constructor
  · rintro rfl
    simp [get_hotel_offers]
  · intro hne
    have hif : ids.isEmpty = false := by simp [hne]
    refine ⟨?_, chunks_length20 ids, chunks_flatten ids 20 (by omega),
      chunks_mem ids 20 (by omega), ?_, ?_⟩
    · simp only [get_hotel_offers, hif, Bool.false_eq_true, if_false,
        List.map_map]
      exact List.map_id _
    · intro b hb
      simp only [get_hotel_offers, hif, Bool.false_eq_true, if_false,
        List.mem_map] at hb
      obtain ⟨c, _, rfl⟩ := hb
      rfl
    · simp [get_hotel_offers, hif]

/-- Concrete instantiation of claim_C1: the empty list gives no batches and
no network call, and 21 ids are split into a chunk of 20 followed by a
chunk of 1 whose concatenation is the input, each batch carrying its
chunk's response. -/
theorem claim_C1_witness :
    get_hotel_offers ([] : List String) (fun c => c.length) = ⟨[], 0⟩ ∧
    (get_hotel_offers idsW (fun c => c.length)).batches.map
        OffersBatch.request_hotel_ids = _chunks idsW 20 ∧
    (_chunks idsW 20).length = (idsW.length + 19) / 20 ∧
    (_chunks idsW 20).flatten = idsW ∧
    (∀ c ∈ _chunks idsW 20, c.length ≤ 20 ∧ c ≠ []) ∧
    (∀ b ∈ (get_hotel_offers idsW (fun c => c.length)).batches,
      b.response = b.request_hotel_ids.length) ∧
    (get_hotel_offers idsW (fun c => c.length)).networkCalls
        = (_chunks idsW 20).length := by
  refine ⟨(claim_C1 [] (fun c => c.length)).1 rfl, ?_⟩
  exact (claim_C1 idsW (fun c => c.length)).2 (by decide)

/-- C2.  For every request attempt that receives HTTP 429: if the
Retry-After header is present and numeric the client sleeps exactly that
many seconds (in particular Retry-After: 5 causes a sleep of exactly 5
seconds), otherwise it sleeps max(1, 2.0^attempt) seconds; if the attempt
number is at least max_retries (3) the request fails with
RateLimitExceeded, otherwise the same request is retried with the attempt
counter incremented. -/
theorem claim_C2 {α : Type} (t : Nat → Response α) (attempt fuel n : Nat) (s : String)
    (h429 : (t attempt).status = 429) :
    rateLimitDelay (some (toDec n)) attempt = n ∧
    rateLimitDelay (some "5") attempt = 5 ∧
    (isNumericStr s = false →
      rateLimitDelay (some s) attempt = max 1 (RETRY_BACKOFF ^ attempt)) ∧
    rateLimitDelay none attempt = max 1 (RETRY_BACKOFF ^ attempt) ∧
    (MAX_RETRIES ≤ attempt →
      runGet t attempt (fuel + 1) =
        ⟨.rateLimitError, 1, [rateLimitDelay (t attempt).retryAfter attempt], 0⟩) ∧
    (attempt < MAX_RETRIES →
      runGet t attempt (fuel + 1) =
        ⟨(runGet t (attempt + 1) fuel).result,
         (runGet t (attempt + 1) fuel).calls + 1,
         rateLimitDelay (t attempt).retryAfter attempt :: (runGet t (attempt + 1) fuel).sleeps,
         (runGet t (attempt + 1) fuel).refreshes⟩) := by
  refine ⟨?_, ?_, ?_, ?_, runGet_429_stop t attempt fuel h429, runGet_429_retry t attempt fuel h429⟩
  · rw [rateLimitDelay, if_pos (isNumericStr_toDec n), parseNat_toDec]
  · rw [rateLimitDelay, if_pos (by decide)]
    decide
  · intro hns
    rw [rateLimitDelay, if_neg (by rw [hns]; exact Bool.false_ne_true)]
  · rfl

/-- Concrete instantiation of claim_C2 on a transport answering 429 with
Retry-After: 5 on every attempt: the delay of a numeric header is its
value, a non-numeric header falls back to max(1, 2^attempt), attempt 3
fails at once with the rate-limit error after a 5 second sleep, and
attempt 1 retries as attempt 2, accumulating sleeps of 5 seconds each
until the failure. -/
theorem claim_C2_witness :
    rateLimitDelay (some (toDec 37)) 2 = 37 ∧
    rateLimitDelay (some "5") 1 = 5 ∧
    rateLimitDelay (some "off") 2 = 4 ∧
    rateLimitDelay none 1 = 2 ∧
    runGet t429five 3 1 = ⟨.rateLimitError, 1, [5], 0⟩ ∧
    runGet t429five 1 3 = ⟨.rateLimitError, 3, [5, 5, 5], 0⟩ := by
  have h1 := claim_C2 t429five 1 2 37 "off" rfl
  have h2 := claim_C2 t429five 2 1 37 "off" rfl
  have h3 := claim_C2 t429five 3 0 37 "off" rfl
  refine ⟨h2.1, h1.2.1, ?_, ?_, ?_, ?_⟩
  · rw [h2.2.2.1 (by decide)]; decide
  · rw [h1.2.2.2.1]; decide
  · rw [h3.2.2.2.2.1 (by decide)]; decide
  · rw [h1.2.2.2.2.2 (by decide), h2.2.2.2.2.2 (by decide), h3.2.2.2.2.1 (by decide)]
    decide

/-- C3.  For every GET request whose first attempt receives HTTP 401 and
whose second attempt receives HTTP 200: exactly one forced token refresh
is performed between the two attempts, and the body of the second response
is returned to the caller; a 401 triggers a refresh-and-retry only while
the attempt counter is below max_retries (at or above it, the 401 is a
terminal HttpError with no refresh). -/
theorem claim_C3 {α : Type} (t : Nat → Response α) :
    ((t 1).status = 401 → (t 2).status = 200 →
      _get t = ⟨.ok (t 2).json, 2, [], 1⟩) ∧
    (∀ attempt fuel, MAX_RETRIES ≤ attempt → (t attempt).status = 401 →
      runGet t attempt (fuel + 1) =
        ⟨.httpError 401 (textExcerpt (t attempt).text), 1, [], 0⟩) := by
  constructor
  · intro h1 h2
    show runGet t 1 (2 + 1) = _
    rw [runGet_401_refresh t 1 2 h1 (by decide),
      runGet_2xx t 2 1 (by omega) (by omega)]
  · intro attempt fuel ha h401
    simp only [MAX_RETRIES] at ha
    rw [runGet_terminal t attempt fuel (by omega) (by simp only [MAX_RETRIES]; omega)
      (by omega) (by omega), h401]

/-- Concrete instantiation of claim_C3 on a transport answering 401 then
200 with body 7: one refresh, two transport calls, no sleeps, body 7
returned; and at attempt 3 a 401 is terminal with no refresh. -/
theorem claim_C3_witness :
    _get t401then200 = ⟨.ok 7, 2, [], 1⟩ ∧
    runGet tAll401 3 1 = ⟨.httpError 401 "unauthorized", 1, [], 0⟩ := by
  refine ⟨(claim_C3 t401then200).1 rfl rfl, ?_⟩
  rw [(claim_C3 tAll401).2 3 0 (by decide) rfl]
  decide

/-- C4.  For every GET request that receives three consecutive HTTP 500
responses with max_retries = 3: the transport is invoked exactly 3 times,
the client sleeps 2.0^(attempt-1) seconds after each non-final 5xx (1
second then 2 seconds), and the request terminates by raising HttpError
carrying the status and a body excerpt. -/
theorem claim_C4 {α : Type} (t : Nat → Response α)
    (h : ∀ a, 1 ≤ a → a ≤ 3 → (t a).status = 500) :
    _get t = ⟨.httpError 500 (textExcerpt (t 3).text), 3, [1, 2], 0⟩ ∧
    [1, 2] = [_sleep_backoff 1, _sleep_backoff 2] := by
  have h1 := h 1 (by omega) (by omega)
  have h2 := h 2 (by omega) (by omega)
  have h3 := h 3 (by omega) (by omega)
  constructor
  · show runGet t 1 (2 + 1) = _
    rw [runGet_5xx_retry t 1 2 (by omega) (by omega) (by decide),
      runGet_5xx_retry t 2 1 (by omega) (by omega) (by decide),
      runGet_terminal t 3 0 (by omega) (by omega) (by omega)
        (by simp only [MAX_RETRIES]; omega), h3]
    rfl
  · rfl

/-- Concrete instantiation of claim_C4 on a transport answering 500 with
body boom on every attempt: HttpError with the status and body excerpt,
three transport calls, sleeps of 1 then 2 seconds. -/
theorem claim_C4_witness :
    _get tAll500 = ⟨.httpError 500 "boom", 3, [1, 2], 0⟩ := by
  have h := claim_C4 tAll500 (fun a _ _ => rfl)
  rw [h.1]
  decide

/-- C5 counterexample.  The claim says a token-exchange POST whose retry
ceiling is exhausted by 429 responses raises AuthError; on a transport
answering 429 on all three attempts, _post_form instead terminates with
the AmadeusRateLimitError raised inside _handle_rate_limit, which is not
an AmadeusAuthError. -/
theorem claim_C5_counterexample :
    (_post_form post429).result = PostResult.rateLimitError ∧
    PostResult.isAuthError (_post_form post429).result = false := by
  decide

/-- C5 (amended).  For every run of the token-exchange POST in which the
retry ceiling (max_retries = 3) is exhausted: if the exhausting responses
were 5xx the operation raises AuthError; if they were 429 it raises
RateLimitExceeded (the AmadeusRateLimitError from _handle_rate_limit),
not AuthError. -/
theorem claim_C5 {α : Type} (t : Nat → Response α) :
    ((∀ a, 1 ≤ a → a ≤ 3 → 500 ≤ (t a).status ∧ (t a).status < 600) →
      (_post_form t).result = .authFailed (t 3).status (textExcerpt (t 3).text) ∧
      PostResult.isAuthError (_post_form t).result = true) ∧
    ((∀ a, 1 ≤ a → a ≤ 3 → (t a).status = 429) →
      (_post_form t).result = PostResult.rateLimitError ∧
      PostResult.isAuthError (_post_form t).result = false) := by
  constructor
  · intro h
    have h1 := h 1 (by omega) (by omega)
    have h2 := h 2 (by omega) (by omega)
    have h3 := h 3 (by omega) (by omega)
    have e : (_post_form t).result = .authFailed (t 3).status (textExcerpt (t 3).text) := by
      show (runPost t 1 (2 + 1)).result = _
      rw [runPost_5xx_retry t 1 2 h1.1 h1.2 (by decide)]
      show (runPost t 2 (1 + 1)).result = _
      rw [runPost_5xx_retry t 2 1 h2.1 h2.2 (by decide)]
      show (runPost t 3 (0 + 1)).result = _
      rw [runPost_terminal t 3 0 (by omega) (by omega)
        (by simp only [MAX_RETRIES]; omega)]
    exact ⟨e, by rw [e]; rfl⟩
  · intro h
    have e : (_post_form t).result = PostResult.rateLimitError := by
      show (runPost t 1 (2 + 1)).result = _
      rw [runPost_429_retry t 1 2 (h 1 (by omega) (by omega)) (by decide)]
      show (runPost t 2 (1 + 1)).result = _
      rw [runPost_429_retry t 2 1 (h 2 (by omega) (by omega)) (by decide)]
      show (runPost t 3 (0 + 1)).result = _
      rw [runPost_429_stop t 3 0 (h 3 (by omega) (by omega)) (by decide)]
    exact ⟨e, by rw [e]; rfl⟩

/-- Concrete instantiation of claim_C5: three 503 responses end in
AmadeusAuthError carrying the status and body excerpt, three 429 responses
end in AmadeusRateLimitError. -/
theorem claim_C5_witness :
    (_post_form post503).result = PostResult.authFailed 503 "down" ∧
    PostResult.isAuthError (_post_form post503).result = true ∧
    (_post_form post429).result = PostResult.rateLimitError ∧
    PostResult.isAuthError (_post_form post429).result = false := by
  have ha := (claim_C5 post503).1 (fun a _ _ => (by decide : (500:Nat) ≤ 503 ∧ (503:Nat) < 600))
  have hb := (claim_C5 post429).2 (fun a _ _ => rfl)
  refine ⟨?_, ha.2, hb.1, hb.2⟩
  rw [ha.1]
  decide

/-- C6.  For every call get_token(force): if force is false and a token is
cached, the cached token is returned and no token-exchange request is
issued; if force is true or no token exists, a client-credentials exchange
is performed and its token cached; if the exchange's success response
lacks a non-empty token value field, AuthError is raised (without
retrying: the single _post_form run is the only exchange) and the
previously cached token, if any, is left unchanged.  The final conjunct is
the cache invariant justifying the non-empty hypothesis on the cached
token: no call ever stores an empty token. -/
theorem claim_C6 (cached : Option String) (force : Bool)
    (t : Nat → Response AuthJson) (tok : String) :
    (force = false → cached = some tok → tok ≠ "" →
      get_access_token cached force t = ⟨.ok tok, some tok, 0⟩) ∧
    ((force = true ∨ cached = none) →
      (get_access_token cached force t).exchanges = 1) ∧
    ((force = true ∨ cached = none) →
      ((_post_form t).result = .ok ⟨none⟩ ∨ (_post_form t).result = .ok ⟨some ""⟩) →
      get_access_token cached force t = ⟨.missingToken, cached, 1⟩) ∧
    (∀ tv, tv ≠ "" → (force = true ∨ cached = none) →
      (_post_form t).result = .ok ⟨some tv⟩ →
      get_access_token cached force t = ⟨.ok tv, some tv, 1⟩) ∧
    ((get_access_token cached force t).token = cached ∨
      ∃ tv, tv ≠ "" ∧ (get_access_token cached force t).token = some tv) := by
  refine ⟨?_, ?_, ?_, ?_, ?_⟩
  · rintro rfl rfl htok
    rw [get_access_token, if_pos (by simp [tokenTruthy, htok])]
    simp
  · intro hfc
    have hcond : ¬((tokenTruthy cached && !force) = true) := by
      rcases hfc with hf | hc
      · simp [hf]
      · simp [hc, tokenTruthy]
    rw [get_access_token, if_neg hcond]
    rcases hpr : (_post_form t).result with body | _ | ⟨st, ex⟩ | _
    case ok =>
      obtain ⟨a⟩ := body
      rcases a with _ | tv
      · rfl
      · by_cases htv : tv = "" <;> simp [htv]
    case rateLimitError => rfl
    case authFailed => rfl
    case authExhausted => rfl
  · intro hfc hmiss
    have hcond : ¬((tokenTruthy cached && !force) = true) := by
      rcases hfc with hf | hc
      · simp [hf]
      · simp [hc, tokenTruthy]
    rw [get_access_token, if_neg hcond]
    rcases hmiss with hm | hm <;> (rw [hm]; try rfl)
  · intro tv htv hfc hok
    have hcond : ¬((tokenTruthy cached && !force) = true) := by
      rcases hfc with hf | hc
      · simp [hf]
      · simp [hc, tokenTruthy]
    rw [get_access_token, if_neg hcond, hok]
    simp [htv]
  · by_cases hc : (tokenTruthy cached && !force) = true
    · rw [get_access_token, if_pos hc]
      exact Or.inl rfl
    · rw [get_access_token, if_neg hc]
      rcases hpr : (_post_form t).result with body | _ | ⟨st, ex⟩ | _
      · obtain ⟨a⟩ := body
        rcases a with _ | tv
        · exact Or.inl rfl
        · by_cases htv : tv = ""
          · simp [htv]
          · simp only [htv, if_false]
            exact Or.inr ⟨tv, htv, rfl⟩
      · exact Or.inl rfl
      · exact Or.inl rfl
      · exact Or.inl rfl

/-- Concrete instantiation of claim_C6: a cached token abc is returned
without an exchange; with no cached token, a success body lacking the
access_token field raises the missing-token AuthError after a single
exchange and leaves the cache empty; a forced refresh over a cached old
token performs one exchange and caches tok-fresh. -/
theorem claim_C6_witness :
    get_access_token (some "abc") false postFresh = ⟨.ok "abc", some "abc", 0⟩ ∧
    get_access_token none false postNoToken = ⟨.missingToken, none, 1⟩ ∧
    get_access_token (some "old") true postFresh = ⟨.ok "tok-fresh", some "tok-fresh", 1⟩ := by
  refine ⟨?_, ?_, ?_⟩
  · exact (claim_C6 (some "abc") false postFresh "abc").1 rfl rfl (by decide)
  · exact (claim_C6 none false postNoToken "").2.2.1 (Or.inr rfl) (Or.inl (by decide))
  · exact (claim_C6 (some "old") true postFresh "").2.2.2.1 "tok-fresh" (by decide)
      (Or.inl rfl) (by decide)

/-- C7.  For every offer record flattened: when both checkInDate and
checkOutDate parse as valid ISO dates, the row's nights field equals the
calendar-day difference check-out minus check-in (so 2025-09-20 /
2025-09-22 yields nights = 2); when either date is missing or fails to
parse, nights is null; and no exception propagates from the flatten step
(the total function flatten_offers emits exactly one row per offer, with
nights computed per-offer by the total nightsOf). -/
theorem claim_C7 (raw : RawOffers) (ci co : String) (a b : Date) (x : Option String) :
    (fromisoformat ci = some a → fromisoformat co = some b →
      nightsOf (some ci) (some co) = some ((dateOrdinal b : Int) - (dateOrdinal a : Int))) ∧
    (fromisoformat ci = none → nightsOf (some ci) x = none) ∧
    (fromisoformat co = none → nightsOf x (some co) = none) ∧
    nightsOf none x = none ∧
    nightsOf x none = none ∧
    (flatten_offers raw).map FlatRow.nights
      = (allOffers raw).map (fun o => nightsOf o.checkInDate o.checkOutDate) ∧
    nightsOf (some "2025-09-20") (some "2025-09-22") = some 2 := by
  refine ⟨nightsOf_parses ci co a b, nightsOf_left_none ci x, nightsOf_right_none co x,
    rfl, ?_, flatten_map_nights raw, by decide⟩
  cases x <;> rfl

/-- Concrete instantiation of claim_C7: the spec's example dates give
nights = 2 end to end through flatten_offers, and an unparsable check-in
gives nights = null. -/
theorem claim_C7_witness :
    nightsOf (some "2025-09-20") (some "2025-09-22") = some 2 ∧
    nightsOf (some "garbage") (some "2025-09-22") = none ∧
    (flatten_offers (sampleRaw (some "2025-09-20") (some "2025-09-22"))).map
        FlatRow.nights = [some 2] := by
  have h := claim_C7 (sampleRaw (some "2025-09-20") (some "2025-09-22"))
    "garbage" "2025-09-22" ⟨2025, 9, 20⟩ ⟨2025, 9, 22⟩ (some "2025-09-22")
  refine ⟨h.2.2.2.2.2.2, h.2.1 (by decide), ?_⟩
  rw [h.2.2.2.2.2.1]
  decide

/-- C8.  For every offer record flattened: if the offer's policies contain
a refundable entry whose cancellation-refund value equals the sentinel
NON_REFUNDABLE, the row's refundable field is false; if a refundable entry
is present with any other cancellation-refund value, it is true; if the
refundable key is absent from the policies, it is null, not false. -/
theorem claim_C8 (raw : RawOffers) (v : String) :
    refundableOf ⟨some ⟨some "NON_REFUNDABLE"⟩⟩ = some false ∧
    (v ≠ "NON_REFUNDABLE" → refundableOf ⟨some ⟨some v⟩⟩ = some true) ∧
    refundableOf ⟨none⟩ = none ∧
    (flatten_offers raw).map FlatRow.refundable
      = (allOffers raw).map (fun o => refundableOf o.policies) := by
  refine ⟨by decide, ?_, rfl, flatten_map_refundable raw⟩
  intro hv
  simp [refundableOf, hv]

/-- Concrete instantiation of claim_C8: the sentinel gives false, another
value gives true, an absent refundable key gives null, and the sentinel
row flattens to refundable = false. -/
theorem claim_C8_witness :
    refundableOf ⟨some ⟨some "NON_REFUNDABLE"⟩⟩ = some false ∧
    refundableOf ⟨some ⟨some "PARTIAL"⟩⟩ = some true ∧
    refundableOf ⟨none⟩ = none ∧
    (flatten_offers (samplePolicyRaw ⟨some ⟨some "NON_REFUNDABLE"⟩⟩)).map
        FlatRow.refundable = [some false] := by
  have h := claim_C8 (samplePolicyRaw ⟨some ⟨some "NON_REFUNDABLE"⟩⟩) "PARTIAL"
  refine ⟨h.1, h.2.1 (by decide), h.2.2.1, ?_⟩
  rw [h.2.2.2]
  decide

/-- C9.  For every offer whose policies contain a refundable object that
lacks the cancellationRefund field, flatten_offers sets the row's
refundable field to true (a missing value compares unequal to the
sentinel), not to null. -/
theorem claim_C9 (raw : RawOffers) (p : Policies) (h : p.refundable = some ⟨none⟩) :
    refundableOf p = some true ∧
    refundableOf p ≠ none ∧
    (flatten_offers raw).map FlatRow.refundable
      = (allOffers raw).map (fun o => refundableOf o.policies) := by
  have ht : refundableOf p = some true := by
    simp only [refundableOf, h]
    rfl
  exact ⟨ht, by rw [ht]; simp, flatten_map_refundable raw⟩

/-- Concrete instantiation of claim_C9: a refundable object without a
cancellationRefund field flattens to refundable = true, not null. -/
theorem claim_C9_witness :
    refundableOf ⟨some ⟨none⟩⟩ = some true ∧
    refundableOf ⟨some ⟨none⟩⟩ ≠ none ∧
    (flatten_offers (samplePolicyRaw ⟨some ⟨none⟩⟩)).map
        FlatRow.refundable = [some true] := by
  have h := claim_C9 (samplePolicyRaw ⟨some ⟨none⟩⟩) ⟨some ⟨none⟩⟩ rfl
  refine ⟨h.1, h.2.1, ?_⟩
  rw [h.2.2]
  decide

/-- C10.  For every offer whose checkInDate and checkOutDate both parse as
valid ISO dates but with check-out on or before check-in, flatten_offers
emits the (zero or negative) signed day difference as nights rather than
null or an error: no validation rejects reversed or equal date pairs. -/
theorem claim_C10 (ci co : String) (a b : Date)
    (ha : fromisoformat ci = some a) (hb : fromisoformat co = some b)
    (hle : dateOrdinal b ≤ dateOrdinal a) :
    nightsOf (some ci) (some co) = some ((dateOrdinal b : Int) - (dateOrdinal a : Int)) ∧
    ((dateOrdinal b : Int) - (dateOrdinal a : Int)) ≤ 0 := by
  exact ⟨nightsOf_parses ci co a b ha hb, by omega⟩

/-- Concrete instantiation of claim_C10: reversed dates give nights = -2
and an equal pair gives nights = 0, with no error. -/
theorem claim_C10_witness :
    nightsOf (some "2025-09-22") (some "2025-09-20") = some (-2) ∧
    nightsOf (some "2025-09-20") (some "2025-09-20") = some 0 := by
  have h1 := claim_C10 "2025-09-22" "2025-09-20" ⟨2025, 9, 22⟩ ⟨2025, 9, 20⟩
    (by decide) (by decide) (by decide)
  have h2 := claim_C10 "2025-09-20" "2025-09-20" ⟨2025, 9, 20⟩ ⟨2025, 9, 20⟩
    (by decide) (by decide) (by decide)
  refine ⟨?_, ?_⟩
  · rw [h1.1]; decide
  · rw [h2.1]; decide

end Amadeus
